import Mathlib

/-!
Shallow embedding of `src/optimization.py` (class `optimization`) from the
ML4SMILES repository.  Tables are column-oriented maps from column names to
rational-valued columns; pandas/sklearn calls are translated into explicit
Lean functions; Python exceptions become an explicit `PyError` sum; the
external optimizer and cross-validated scorer are abstract function
parameters, since they live in third-party libraries.
-/

namespace ML4S

/-- Python exceptions that the embedded code can raise. -/
inductive PyError where
  | unboundLocal (n : String)
  | attributeError (n : String)
  | keyError (n : String)
deriving DecidableEq, Repr

/-- A pandas DataFrame, modelled as an association list from column name to
the column's values (row order preserved). -/
abbrev Table := List (String × List ℚ)

/-- Column lookup `df[c]`, returning the column values ([] when absent;
presence is checked separately by `hasCol`). -/
def tget (t : Table) (c : String) : List ℚ :=
  (((t.find? (fun p => p.1 == c)).map Prod.snd)).getD []

/-- Whether a column named `c` exists in the table. -/
def hasCol (t : Table) (c : String) : Bool :=
  t.any (fun p => p.1 == c)

/-- `df[features]`: column selection in feature-list order. -/
def selectCols (t : Table) (fs : List String) : Table :=
  fs.map (fun f => (f, tget t f))

/-- Minimum of a column, as computed by `MinMaxScaler.fit` (`np.min` per
column).  The `[]` case is never reached on real data. -/
def colMin : List ℚ → ℚ
  | [] => 0
  | [x] => x
  | x :: y :: t => min x (colMin (y :: t))

/-- Maximum of a column, as computed by `MinMaxScaler.fit`. -/
def colMax : List ℚ → ℚ
  | [] => 0
  | [x] => x
  | x :: y :: t => max x (colMax (y :: t))

/-- `MinMaxScaler(feature_range=(0,1))` transform of one value, given the
fitted column statistics: `(x - data_min) / (data_max - data_min)`, with
sklearn's zero-range handling (divisor replaced by 1). -/
def mmScale (dmin dmax x : ℚ) : ℚ :=
  (x - dmin) / (if dmax - dmin = 0 then 1 else dmax - dmin)

/-- `MinMaxScaler.fit` on `train[features]`: per feature column, the fitted
(min, max) statistics, computed from the train table only. -/
def fitParams (train : Table) (features : List String) : List (String × ℚ × ℚ) :=
  features.map (fun f => (f, colMin (tget train f), colMax (tget train f)))

/-- Applying a fitted scaler to a table: each column that has fitted
parameters is replaced by its scaled values; other columns, the row order
and the column order are untouched (this is the net effect of
`df[features] = DataFrame(scaling.transform(df[features].values), ...)`). -/
def transformTable (ps : List (String × ℚ × ℚ)) (t : Table) : Table :=
  t.map (fun p =>
    match ps.find? (fun q => q.1 == p.1) with
    | some (_, m, M) => (p.1, p.2.map (mmScale m M))
    | none => p)

/-- `optimization.__init__`'s data-preparation step.  The target column name
is stored but never validated.  With `scaled = true` no column is touched.
With `scaled = false` the scaler is fit on the train table's feature
columns (`fit_transform`) and the fitted transform is applied to the test
table's feature columns (`transform`); accessing a feature column missing
from a table raises a pandas `KeyError`. -/
def dataPrep (train test : Table) (features : List String) (target : String)
    (scaled : Bool) : Except PyError (Table × Table) :=
  let _ := target
  if scaled then
    .ok (train, test)
  else
    if features.all (fun f => hasCol train f) then
      let ps := fitParams train features
      let train2 := transformTable ps train
      if features.all (fun f => hasCol test f) then
        .ok (train2, transformTable ps test)
      else
        .error (.keyError "features not in test columns")
    else
      .error (.keyError "features not in train columns")

/-- The estimator constructors reachable from `base_model`.  `XGBRegressor`
is imported by the source file but never constructed. -/
inductive Ctor where
  | LGBMClassifier
  | XGBClassifier
  | LGBMRegressor
  | XGBRegressor
deriving DecidableEq, Repr

/-- An sklearn-style estimator: the constructor used plus its parameter
set.  Parameters not passed at construction are `none` (library default);
the three searched hyperparameters start unset and are filled in by
`set_params`. -/
structure Estimator where
  ctor : Ctor
  objective : Option String
  boosting_type : Option String
  booster : Option String
  random_state : Int
  importance_type : String
  max_depth : Option Int
  verbose : Option Int
  learning_rate : Option ℚ := none
  n_estimators : Option ℚ := none
  num_leaves : Option ℚ := none
deriving DecidableEq, Repr

/-- `optimization.base_model`: chooses the baseline estimator from the
problem kind and the boosting family.  `none` models the branches in which
`self.estimator` is left untouched (unrecognized problem or family).  Note
the source's `regression`/`XGBoost` branch constructs `XGBClassifier`
(with `objective='reg:squarederror'`), not `XGBRegressor`. -/
def base_model (problem boosting_method : String) (objective : Option String) :
    Option Estimator :=
  if problem == "classification" then
    if boosting_method == "lightGBM" then
      some { ctor := .LGBMClassifier, objective := objective,
             boosting_type := some "gbdt", booster := none,
             random_state := 42, importance_type := "gain",
             max_depth := some (-1), verbose := some (-1) }
    else if boosting_method == "XGBoost" then
      some { ctor := .XGBClassifier, objective := objective,
             boosting_type := none, booster := some "gbtree",
             random_state := 42, importance_type := "total_gain",
             max_depth := none, verbose := none }
    else none
  else if problem == "regression" then
    if boosting_method == "lightGBM" then
      some { ctor := .LGBMRegressor, objective := none,
             boosting_type := some "gbdt", booster := none,
             random_state := 42, importance_type := "gain",
             max_depth := some (-1), verbose := some (-1) }
    else if boosting_method == "XGBoost" then
      some { ctor := .XGBClassifier, objective := some "reg:squarederror",
             boosting_type := none, booster := some "gbtree",
             random_state := 42, importance_type := "total_gain",
             max_depth := none, verbose := none }
    else none
  else none

/-- One `estimator.set_params(**{p: v})` call, for the parameter names this
module ever passes. -/
def set_param (e : Estimator) (p : String) (v : ℚ) : Estimator :=
  if p == "learning_rate" then { e with learning_rate := some v }
  else if p == "n_estimators" then { e with n_estimators := some v }
  else if p == "num_leaves" then { e with num_leaves := some v }
  else e

/-- Sequential `set_params` calls over (name, value) pairs. -/
def applyParams (e : Estimator) (pvs : List (String × ℚ)) : Estimator :=
  pvs.foldl (fun a pv => set_param a pv.1 pv.2) e

/-- Reading a searched hyperparameter back from an estimator by name. -/
def get_param (e : Estimator) (p : String) : Option ℚ :=
  if p == "learning_rate" then e.learning_rate
  else if p == "n_estimators" then e.n_estimators
  else if p == "num_leaves" then e.num_leaves
  else none

/-- One dimension of the skopt search space. -/
structure Dim where
  name : String
  isInt : Bool
  lo : ℚ
  hi : ℚ
  prior : Option String
deriving DecidableEq, Repr

/-- `optimization.set_hyperparameters`: the fixed 3-dimensional space, in
declaration order. -/
def space : List Dim :=
  [ { name := "learning_rate", isInt := false, lo := 1/10000, hi := 1,
      prior := some "log-uniform" },
    { name := "n_estimators", isInt := true, lo := 100, hi := 3000,
      prior := none },
    { name := "num_leaves", isInt := true, lo := 10, hi := 400,
      prior := none } ]

/-- `self.hyperparameters` as set by `optimization.set_hyperparameters`. -/
def hyperparameter_names : List String :=
  ["learning_rate", "n_estimators", "num_leaves"]

/-- A concrete baseline estimator (the `classification`/`lightGBM` one),
used as sample input when instantiating theorems. -/
def egClassifier : Estimator :=
  { ctor := .LGBMClassifier, objective := some "binary",
    boosting_type := some "gbdt", booster := none, random_state := 42,
    importance_type := "gain", max_depth := some (-1), verbose := some (-1) }

/-- The scoring metric picked inside `objective` from the problem kind;
`none` models the `NameError` path in which `scoring` stays unbound. -/
def scoring_for (problem : String) : Option String :=
  if problem == "classification" then some "roc_auc"
  else if problem == "regression" then some "neg_root_mean_squared_error"
  else none

/-- `np.mean` of a list of scores. -/
def npMean (l : List ℚ) : ℚ := l.sum / l.length

/-- The abstract `sklearn.model_selection.cross_val_score` collaborator:
given the estimator, the feature matrix `train[features]`, the target
vector `train[target]`, the fold count and the metric name, it returns the
per-fold scores. -/
abbrev CVScorer := Estimator → Table → List ℚ → Nat → String → List ℚ

/-- The `objective` closure defined inside `optimization.run`: picks the
metric from the problem kind, assigns the candidate parameters onto the
estimator, and returns `-np.mean(cross_val_score(est, train[features],
train[target], cv=5, scoring=scoring))`. -/
def objective (cvs : CVScorer) (problem : String) (e : Estimator)
    (sample_train : Table) (features : List String) (target : String)
    (params : List (String × ℚ)) : Except PyError ℚ :=
  match scoring_for problem with
  | none => .error (.unboundLocal "scoring")
  | some scoring =>
    let e2 := applyParams e params
    .ok (-(npMean (cvs e2 (selectCols sample_train features)
                    (tget sample_train target) 5 scoring)))

/-- The strategy-name dispatch at the top of `optimization.run`; `none`
models the fall-through in which the local `opt_method` stays unbound. -/
def select_opt_method (m : String) : Option String :=
  if m == "random_search" then some "dummy_minimize"
  else if m == "bayesian" then some "gp_minimize"
  else if m == "gradient_bossted_trees" then some "gbrt_minimize"
  else if m == "decision_trees" then some "forest_minimize"
  else none

/-- A skopt `OptimizeResult`: the best-found vector `x` plus the full
evaluation trace (`x_iters`, `func_vals`). -/
structure SearchResult where
  x : List ℚ
  x_iters : List (List ℚ)
  func_vals : List ℚ
deriving DecidableEq, Repr

/-- What `skopt.dump` is handed at the end of `optimization.run`: either
the optimizer function object (`opt_method`) or the search-state result
object (`self.opt`).  The source passes the former. -/
inductive DumpObj where
  | optFunction (fnName : String)
  | searchState (r : SearchResult)
deriving DecidableEq, Repr

/-- The abstract skopt minimizer collaborator: the selected strategy
function applied to the objective callable, returning the result object. -/
abbrev Minimizer := String → (List ℚ → ℚ) → SearchResult

/-- `os.path.join` for the simple relative-name case used here. -/
def os_path_join (d f : String) : String := d ++ "/" ++ f

/-- The loop `for i in range(0, len(opt.x)): self.values.append(opt.x[i])`
that builds `self.values` from the best-found vector. -/
def run_values (x : List ℚ) : List ℚ :=
  (List.range x.length).foldl (fun acc i => acc ++ [x.getD i 0]) []

/-- The observable outcome of a successful `optimization.run`: the search
result, the `self.values` list, and the object and path handed to
`skopt.dump`. -/
structure RunOut where
  opt : SearchResult
  values : List ℚ
  dumped : DumpObj
  dumpPath : String
deriving DecidableEq, Repr

/-- `optimization.run`: dispatches on the strategy name (an unrecognized
name leaves `opt_method` unbound, so the call `opt_method(...)` raises
`UnboundLocalError` before the optimizer or the objective ever runs),
runs the minimizer, copies `opt.x` into `self.values` in order, and calls
`dump(opt_method, os.path.join(path_to_save,
'optimization_data_' + target + '.pkl'))`. -/
def run (minimize : Minimizer) (obj : List ℚ → ℚ)
    (path_to_save target optimization_method : String) :
    Except PyError RunOut :=
  match select_opt_method optimization_method with
  | none => .error (.unboundLocal "opt_method")
  | some fn =>
    let opt := minimize fn obj
    .ok { opt := opt,
          values := run_values opt.x,
          dumped := .optFunction fn,
          dumpPath := os_path_join path_to_save
            ("optimization_data_" ++ target ++ ".pkl") }

/-- The instance attributes `optimization.train_model` reads.  `none`
models an attribute never assigned (its stage not yet run); `estimator`
itself always exists but may hold Python `None`. -/
structure OState where
  estimator : Option Estimator
  hyperparameters : Option (List String)
  values : Option (List ℚ)

/-- Observable side effects of `train_model`. -/
inductive Event where
  | setParamE (n : String)
  | fitE
deriving DecidableEq, Repr

/-- `optimization.train_model`: `self.model = self.estimator`, then
`set_params` per `zip(self.hyperparameters, self.values)` pair, then
`self.model.fit(...)`.  Reading a never-assigned attribute raises
`AttributeError` at the `zip` call, before any `fit`; the event list
records the `set_params` and `fit` calls actually made. -/
def train_model (s : OState) : Except PyError Estimator × List Event :=
  match s.hyperparameters with
  | none => (.error (.attributeError "hyperparameters"), [])
  | some hps =>
    match s.values with
    | none => (.error (.attributeError "values"), [])
    | some vs =>
      let pvs := hps.zip vs
      match s.estimator with
      | none =>
        (.error (.attributeError (if pvs.isEmpty then "fit" else "set_params")), [])
      | some e =>
        (.ok (applyParams e pvs),
         pvs.map (fun pv => Event.setParamE pv.1) ++ [Event.fitE])

/-- Whether a Python call completed without raising. -/
def isOkE {α : Type} (x : Except PyError α) : Bool :=
  match x with
  | .ok _ => true
  | .error _ => false

theorem foldl_append_map (f : Nat → ℚ) : ∀ (n : Nat) (acc : List ℚ),
    (List.range n).foldl (fun a i => a ++ [f i]) acc = acc ++ (List.range n).map f := by
  intro n
  induction n with
  | zero => intro acc; simp
  | succ k ih =>
    intro acc
    rw [List.range_succ, List.foldl_append, ih, List.map_append]
    simp

theorem map_getD_range : ∀ (x : List ℚ),
    (List.range x.length).map (fun i => x.getD i 0) = x := by
  intro x
  induction x with
  | nil => simp
  | cons a t ih =>
    rw [List.length_cons, List.range_succ_eq_map, List.map_cons, List.map_map]
    simp only [Function.comp_def, List.getD_cons_succ, List.getD_cons_zero]
    rw [ih]

/-- The `self.values`-building loop copies `opt.x` verbatim, in order. -/
theorem run_values_eq (x : List ℚ) : run_values x = x := by
  unfold run_values
  rw [foldl_append_map, List.nil_append, map_getD_range]

theorem colMin_le : ∀ (l : List ℚ) (y : ℚ), y ∈ l → colMin l ≤ y
  | [], _, h => absurd h (List.not_mem_nil _)
  | [x], y, h => by
      have hy : y = x := List.mem_singleton.mp h
      subst hy
      exact le_of_eq rfl
  | x :: z :: t, y, h => by
      have hc : colMin (x :: z :: t) = min x (colMin (z :: t)) := rfl
      rcases List.mem_cons.mp h with h1 | h2
      · subst h1; rw [hc]; exact min_le_left _ _
      · rw [hc]; exact le_trans (min_le_right _ _) (colMin_le (z :: t) y h2)

theorem le_colMax : ∀ (l : List ℚ) (y : ℚ), y ∈ l → y ≤ colMax l
  | [], _, h => absurd h (List.not_mem_nil _)
  | [x], y, h => by
      have hy : y = x := List.mem_singleton.mp h
      subst hy
      exact le_of_eq rfl
  | x :: z :: t, y, h => by
      have hc : colMax (x :: z :: t) = max x (colMax (z :: t)) := rfl
      rcases List.mem_cons.mp h with h1 | h2
      · subst h1; rw [hc]; exact le_max_left _ _
      · rw [hc]; exact le_trans (le_colMax (z :: t) y h2) (le_max_right _ _)

/-- A value between the fitted column min and max scales into `[0, 1]`. -/
theorem mmScale_mem_unit {m M x : ℚ} (h1 : m ≤ x) (h2 : x ≤ M) :
    0 ≤ mmScale m M x ∧ mmScale m M x ≤ 1 := by
  unfold mmScale
  by_cases hd : M - m = 0
  · rw [if_pos hd, div_one]
    constructor
    · linarith
    · linarith
  · have hpos : 0 < M - m := lt_of_le_of_ne (by linarith) (Ne.symm hd)
    rw [if_neg hd]
    constructor
    · exact div_nonneg (by linarith) (le_of_lt hpos)
    · rw [div_le_one hpos]; linarith

/-- The eight parameters that `set_params` never touches, bundled. -/
def frameOf (e : Estimator) :
    Ctor × Option String × Option String × Option String × Int × String ×
      Option Int × Option Int :=
  (e.ctor, e.objective, e.boosting_type, e.booster, e.random_state,
   e.importance_type, e.max_depth, e.verbose)

theorem set_param_frame (e : Estimator) (p : String) (v : ℚ) :
    frameOf (set_param e p v) = frameOf e := by
  unfold set_param
  split_ifs <;> rfl

theorem applyParams_frame : ∀ (pvs : List (String × ℚ)) (e : Estimator),
    frameOf (applyParams e pvs) = frameOf e
  | [], _ => rfl
  | pv :: rest, e => by
      have h2 := applyParams_frame rest (set_param e pv.1 pv.2)
      have h1 := set_param_frame e pv.1 pv.2
      have hc : applyParams e (pv :: rest) =
          applyParams (set_param e pv.1 pv.2) rest := rfl
      rw [hc, h2, h1]

theorem tget_cons (c : String) (x : List ℚ) (r : Table) (f : String) :
    tget ((c, x) :: r) f = if c = f then x else tget r f := by
  by_cases h : c = f
  · rw [if_pos h]
    unfold tget
    rw [List.find?_cons_of_pos]
    · rfl
    · simpa using h
  · rw [if_neg h]
    unfold tget
    rw [List.find?_cons_of_neg]
    simpa using h

theorem find_fitParams (t : Table) : ∀ (fs : List String) (f : String), f ∈ fs →
    (fitParams t fs).find? (fun q => q.1 == f) =
      some (f, colMin (tget t f), colMax (tget t f))
  | [], f, h => absurd h (List.not_mem_nil _)
  | g :: gs, f, h => by
      have hc : fitParams t (g :: gs) =
          (g, colMin (tget t g), colMax (tget t g)) :: fitParams t gs := rfl
      rw [hc]
      by_cases hg : g = f
      · subst hg
        rw [List.find?_cons_of_pos]
        simp
      · rcases List.mem_cons.mp h with h1 | h2
        · exact absurd h1.symm hg
        · rw [List.find?_cons_of_neg]
          · exact find_fitParams t gs f h2
          · simpa using hg

theorem tget_transformTable (ps : List (String × ℚ × ℚ)) :
    ∀ (t : Table) (f : String),
    tget (transformTable ps t) f =
      match ps.find? (fun q => q.1 == f) with
      | some pmm => (tget t f).map (mmScale pmm.2.1 pmm.2.2)
      | none => tget t f
  | [], f => by
      cases hps : ps.find? (fun q => q.1 == f) <;>
        simp [transformTable, tget, hps]
  | (c, col) :: rest, f => by
      have ih := tget_transformTable ps rest f
      by_cases hc : c = f
      · subst hc
        cases hps : ps.find? (fun q => q.1 == c) with
        | none =>
          have hhd : transformTable ps ((c, col) :: rest) =
              (c, col) :: transformTable ps rest := by
            unfold transformTable
            rw [List.map_cons, hps]
          rw [hhd]
          simp [tget_cons]
        | some pmm =>
          have hhd : transformTable ps ((c, col) :: rest) =
              (c, col.map (mmScale pmm.2.1 pmm.2.2)) :: transformTable ps rest := by
            unfold transformTable
            rw [List.map_cons, hps]
          rw [hhd]
          simp [tget_cons]
      · have hhd : ∃ col2, transformTable ps ((c, col) :: rest) =
            (c, col2) :: transformTable ps rest := by
          unfold transformTable
          rw [List.map_cons]
          cases hps : ps.find? (fun q => q.1 == c) with
          | none => exact ⟨col, rfl⟩
          | some pmm => exact ⟨col.map (mmScale pmm.2.1 pmm.2.2), rfl⟩
        obtain ⟨col2, hhd⟩ := hhd
        rw [hhd, tget_cons, if_neg hc, ih, tget_cons, if_neg hc]

/-- Characterization of a successful unscaled data preparation: both tables
must contain every feature column, and both outputs are the input tables
transformed with the parameters fit on the train table. -/
theorem dataPrep_false_ok {train test : Table} {features : List String}
    {target : String} {tr te : Table}
    (h : dataPrep train test features target false = .ok (tr, te)) :
    features.all (fun f => hasCol train f) = true ∧
    features.all (fun f => hasCol test f) = true ∧
    tr = transformTable (fitParams train features) train ∧
    te = transformTable (fitParams train features) test := by
  by_cases h1 : features.all (fun f => hasCol train f) = true
  · by_cases h2 : features.all (fun f => hasCol test f) = true
    · refine ⟨h1, h2, ?_, ?_⟩
      · simp [dataPrep, h1, h2] at h
        exact h.1.symm
      · simp [dataPrep, h1, h2] at h
        exact h.2.symm
    · exfalso
      simp [dataPrep, h1, h2] at h
  · exfalso
    simp [dataPrep, h1] at h

/-- On a successful `run`, `self.values` is a verbatim, order-preserving
copy of the best-found vector `opt.x`. -/
theorem run_ok_values (minimize : Minimizer) (obj : List ℚ → ℚ)
    (p t m : String) (out : RunOut)
    (hrun : run minimize obj p t m = .ok out) :
    out.values = out.opt.x := by
  unfold run at hrun
  rcases hsel : select_opt_method m with _ | fn <;> rw [hsel] at hrun
  · exact Except.noConfusion hrun
  · have h2 := Except.ok.inj hrun
    rw [← h2]
    exact run_values_eq _

/-- Claim C1 (code bug): on a completed search, `run` does write to the
configured output directory under the deterministic name
`optimization_data_<target>.pkl`, but the object handed to `skopt.dump` is
`opt_method` — the optimizer function — not the search-state object
`self.opt` that holds every evaluated point and the best vector, so the
artifact cannot regenerate diagnostics.  Shown here by evaluating `run`
on the failing input, for any minimizer and objective. -/
theorem C1_dump_is_optimizer_function_not_search_state
    (minimize : Minimizer) (obj : List ℚ → ℚ) :
    run minimize obj "results" "target1" "random_search" =
      .ok { opt := minimize "dummy_minimize" obj,
            values := run_values (minimize "dummy_minimize" obj).x,
            dumped := .optFunction "dummy_minimize",
            dumpPath := "results/optimization_data_target1.pkl" } ∧
    ∀ r : SearchResult,
      DumpObj.optFunction "dummy_minimize" ≠ DumpObj.searchState r := by
  constructor
  · rfl
  · intro r h
    cases h

/-- Claim C2 (code bug): in the `regression`/`XGBoost` branch,
`base_model` constructs `XGBClassifier` — the very constructor used by
the classification branch — with `objective='reg:squarederror'`, instead
of the imported-but-unused `XGBRegressor`.  The lightGBM regression
branch does use the distinct `LGBMRegressor`. -/
theorem C2_xgboost_regression_reuses_classifier_ctor
    (label1 label2 label3 : Option String) :
    (base_model "regression" "XGBoost" label1).map Estimator.ctor =
      some Ctor.XGBClassifier ∧
    (base_model "classification" "XGBoost" label2).map Estimator.ctor =
      some Ctor.XGBClassifier ∧
    (base_model "regression" "XGBoost" label1).map Estimator.objective =
      some (some "reg:squarederror") ∧
    (base_model "regression" "lightGBM" label3).map Estimator.ctor =
      some Ctor.LGBMRegressor := by
  exact ⟨rfl, rfl, rfl, rfl⟩

/-- Claim C7 (code bug): for a strategy name outside the four recognized
ones, the `if/elif` chain leaves the local `opt_method` unbound, so `run`
raises `UnboundLocalError` at the `opt_method(...)` call — before the
optimizer or the objective (and hence the scorer) can run: the outcome is
the same for every minimizer and every objective.  It is an accidental
unbound-variable crash, not a deliberate configuration-error rejection. -/
theorem C7_unrecognized_strategy_raises_unbound_local
    (minimize : Minimizer) (obj : List ℚ → ℚ) :
    run minimize obj "results" "T" "grid_search" =
      .error (.unboundLocal "opt_method") ∧
    select_opt_method "grid_search" = none := by
  exact ⟨rfl, rfl⟩

/-- Claim C3 (confirmed): for any candidate parameter assignment, the
objective returns exactly the negation of the mean of the 5 per-fold
cross-validation scores computed on the train table over the feature list
and target column, with scoring `roc_auc` for classification and
`neg_root_mean_squared_error` for regression. -/
theorem C3_objective_is_neg_mean_of_cv_scores (cvs : CVScorer) (e : Estimator)
    (train : Table) (features : List String) (target : String)
    (params : List (String × ℚ)) (problem : String)
    (hp : problem = "classification" ∨ problem = "regression")
    (h5 : (cvs (applyParams e params) (selectCols train features)
            (tget train target) 5
            (if problem = "classification" then "roc_auc"
             else "neg_root_mean_squared_error")).length = 5) :
    objective cvs problem e train features target params =
      .ok (-((cvs (applyParams e params) (selectCols train features)
               (tget train target) 5
               (if problem = "classification" then "roc_auc"
                else "neg_root_mean_squared_error")).sum / 5)) := by
  rcases hp with hp | hp <;> subst hp <;>
    simp only [String.reduceEq, if_true, if_false, reduceIte] at h5 ⊢ <;>
    unfold objective scoring_for npMean <;>
    simp [h5]

theorem C3_objective_is_neg_mean_of_cv_scores_witness :
    objective (fun _ _ _ _ _ => [1, 1, 1, 1, 1]) "classification"
      { ctor := .LGBMClassifier, objective := some "binary",
        boosting_type := some "gbdt", booster := none, random_state := 42,
        importance_type := "gain", max_depth := some (-1),
        verbose := some (-1) }
      [("a", [0, 1])] ["a"] "t" [("learning_rate", 1/2)] =
      .ok (-(([1, 1, 1, 1, 1] : List ℚ).sum / 5)) :=
  C3_objective_is_neg_mean_of_cv_scores (fun _ _ _ _ _ => [1, 1, 1, 1, 1])
    { ctor := .LGBMClassifier, objective := some "binary",
      boosting_type := some "gbdt", booster := none, random_state := 42,
      importance_type := "gain", max_depth := some (-1),
      verbose := some (-1) }
    [("a", [0, 1])] ["a"] "t" [("learning_rate", 1/2)] "classification"
    (Or.inl rfl) (by decide)

/-- Claim C4 (confirmed): with `scaled=false`, two runs sharing the train
table but differing in the test table produce identical transformed train
tables, and each test table is only transformed with the parameters
`fitParams train features`, which the scaler fit on the train table
alone — it is never re-fit on test. -/
theorem C4_scaler_fit_exclusively_on_train
    (train test1 test2 : Table) (features : List String)
    (target1 target2 : String) (tr1 te1 tr2 te2 : Table)
    (h1 : dataPrep train test1 features target1 false = .ok (tr1, te1))
    (h2 : dataPrep train test2 features target2 false = .ok (tr2, te2)) :
    tr1 = tr2 ∧
    te1 = transformTable (fitParams train features) test1 ∧
    te2 = transformTable (fitParams train features) test2 := by
  obtain ⟨_, _, htr1, hte1⟩ := dataPrep_false_ok h1
  obtain ⟨_, _, htr2, hte2⟩ := dataPrep_false_ok h2
  exact ⟨htr1.trans htr2.symm, hte1, hte2⟩

theorem C4_scaler_fit_exclusively_on_train_witness :
    ([("a", [(0:ℚ), 1])] : Table) = [("a", [(0:ℚ), 1])] ∧
    ([("a", [(2:ℚ)])] : Table) =
      transformTable (fitParams [("a", [(0:ℚ), 1])] ["a"]) [("a", [(2:ℚ)])] ∧
    ([("a", [(5:ℚ)])] : Table) =
      transformTable (fitParams [("a", [(0:ℚ), 1])] ["a"]) [("a", [(5:ℚ)])] :=
  C4_scaler_fit_exclusively_on_train
    [("a", [0, 1])] [("a", [2])] [("a", [5])] ["a"] "t" "u"
    [("a", [0, 1])] [("a", [2])] [("a", [0, 1])] [("a", [5])]
    (by simp [dataPrep, hasCol, fitParams, transformTable, tget, colMin, colMax,
              mmScale])
    (by simp [dataPrep, hasCol, fitParams, transformTable, tget, colMin, colMax,
              mmScale])

/-- Claim C5 counterexample: the test table is transformed with the
parameters fit on train, so a test value outside the train column's range
leaves `[0, 1]`.  Train column `a = [0, 1]`, test column `a = [3]`:
data preparation succeeds and the transformed test column holds `3`. -/
theorem C5_test_column_escapes_unit_interval :
    dataPrep [("a", [(0:ℚ), 1])] [("a", [(3:ℚ)])] ["a"] "t" false =
      .ok ([("a", [(0:ℚ), 1])], [("a", [(3:ℚ)])]) ∧
    (3:ℚ) ∈ tget [("a", [(3:ℚ)])] "a" ∧ ¬((0:ℚ) ≤ 3 ∧ (3:ℚ) ≤ 1) := by
  refine ⟨?_, ?_, ?_⟩
  · simp [dataPrep, hasCol, fitParams, transformTable, tget, colMin, colMax,
          mmScale]
  · simp [tget]
  · norm_num

/-- Claim C5 amended (proved): after data preparation with `scaled=false`,
every feature column of the TRAIN table holds only values in `[0, 1]`;
the test table is transformed with the train-fitted parameters and its
values may fall outside `[0, 1]`. -/
theorem C5_train_feature_columns_in_unit_interval
    (train test : Table) (features : List String) (target : String)
    (tr te : Table)
    (h : dataPrep train test features target false = .ok (tr, te))
    (f : String) (hf : f ∈ features) :
    ∀ x ∈ tget tr f, 0 ≤ x ∧ x ≤ 1 := by
  obtain ⟨_, _, htr, _⟩ := dataPrep_false_ok h
  subst htr
  intro x hx
  have hfind := find_fitParams train features f hf
  rw [tget_transformTable, hfind] at hx
  simp only [List.mem_map] at hx
  obtain ⟨y, hy, rfl⟩ := hx
  exact mmScale_mem_unit (colMin_le _ y hy) (le_colMax _ y hy)

theorem C5_train_feature_columns_in_unit_interval_witness :
    0 ≤ (1:ℚ) ∧ (1:ℚ) ≤ 1 :=
  C5_train_feature_columns_in_unit_interval
    [("a", [0, 2])] [("a", [1])] ["a"] "t" [("a", [0, 1])] [("a", [1/2])]
    (by simp [dataPrep, hasCol, fitParams, transformTable, tget, colMin, colMax,
              mmScale])
    "a" (by simp) 1 (by simp [tget])

/-- Claim C6 (confirmed): a successful search result's best vector is
copied into `self.values` verbatim (1:1 with the space's dimension order),
`self.hyperparameters` lists exactly the space's dimension names in
declaration order, and `train_model` applies each value to the estimator
parameter named by the dimension at the same position, so the i-th vector
element binds to the i-th declared dimension's name. -/
theorem C6_values_bind_positionally_to_space_dims
    (minimize : Minimizer) (obj : List ℚ → ℚ) (p t m : String)
    (e : Estimator) (out : RunOut)
    (hrun : run minimize obj p t m = .ok out)
    (h3 : out.opt.x.length = 3) (i : Nat) (hi : i < 3) :
    out.values = out.opt.x ∧
    hyperparameter_names = space.map Dim.name ∧
    (train_model { estimator := some e,
                   hyperparameters := some hyperparameter_names,
                   values := some out.values }).1 =
      .ok (applyParams e (hyperparameter_names.zip out.opt.x)) ∧
    get_param (applyParams e (hyperparameter_names.zip out.opt.x))
        ((space.map Dim.name).getD i "") = out.opt.x.get? i := by
  have hov := run_ok_values minimize obj p t m out hrun
  obtain ⟨a, b, c, hx⟩ := List.length_eq_three.mp h3
  refine ⟨hov, rfl, ?_, ?_⟩
  · rw [hov]
    rfl
  · rw [hx]
    interval_cases i <;>
      simp [applyParams, set_param, get_param, hyperparameter_names, space]

theorem C6_values_bind_positionally_to_space_dims_witness :
    ({ opt := ⟨[1/2, 200, 50], [[1/2, 200, 50]], [1]⟩,
       values := [1/2, 200, 50],
       dumped := .optFunction "dummy_minimize",
       dumpPath := "results/optimization_data_T.pkl" } : RunOut).values =
      [(1:ℚ)/2, 200, 50] ∧
    hyperparameter_names = space.map Dim.name ∧
    (train_model { estimator := some egClassifier,
                   hyperparameters := some hyperparameter_names,
                   values := some [(1:ℚ)/2, 200, 50] }).1 =
      .ok (applyParams egClassifier
            (hyperparameter_names.zip [(1:ℚ)/2, 200, 50])) ∧
    get_param (applyParams egClassifier
        (hyperparameter_names.zip [(1:ℚ)/2, 200, 50]))
        ((space.map Dim.name).getD 0 "") = [(1:ℚ)/2, 200, 50].get? 0 :=
  C6_values_bind_positionally_to_space_dims
    (fun _ _ => ⟨[1/2, 200, 50], [[1/2, 200, 50]], [1]⟩) (fun _ => 0)
    "results" "T" "random_search" egClassifier
    { opt := ⟨[1/2, 200, 50], [[1/2, 200, 50]], [1]⟩,
      values := [1/2, 200, 50],
      dumped := .optFunction "dummy_minimize",
      dumpPath := "results/optimization_data_T.pkl" }
    (by simp [run, select_opt_method, run_values_eq, os_path_join])
    (by simp) 0 (by norm_num)

/-- Claim C8 counterexample: construction does NOT fail on schema errors
in general.  With `scaled=true`, a feature column absent from both tables
and a target column absent from both tables, `__init__` completes; and
even with `scaled=false`, an absent target column goes undetected because
the target is never accessed at construction time. -/
theorem C8_missing_columns_not_detected :
    dataPrep [("x", [(1:ℚ)])] [("x", [(2:ℚ)])] ["ghost"] "tgt" true =
      .ok ([("x", [(1:ℚ)])], [("x", [(2:ℚ)])]) ∧
    hasCol [("x", [(1:ℚ)])] "ghost" = false ∧
    hasCol [("x", [(2:ℚ)])] "ghost" = false ∧
    hasCol [("x", [(1:ℚ)])] "tgt" = false ∧
    hasCol [("x", [(2:ℚ)])] "tgt" = false ∧
    dataPrep [("x", [(1:ℚ)])] [("x", [(2:ℚ)])] ["x"] "tgt" false =
      .ok ([("x", [(0:ℚ)])], [("x", [(1:ℚ)])]) := by
  refine ⟨rfl, rfl, rfl, rfl, rfl, ?_⟩
  simp [dataPrep, hasCol, fitParams, transformTable, tget, colMin, colMax,
        mmScale]
  norm_num

/-- Claim C8 amended (proved): with `scaled=true` construction performs no
schema check at all and succeeds; with `scaled=false` it fails (with a
pandas `KeyError`) exactly when the feature list references a column
absent from the train table or from the test table; the target column is
never checked at construction time in either mode. -/
theorem C8_schema_check_only_for_features_when_scaling
    (train test : Table) (features : List String) (target : String) :
    dataPrep train test features target true = .ok (train, test) ∧
    (isOkE (dataPrep train test features target false) = true ↔
      (features.all (fun f => hasCol train f) = true ∧
       features.all (fun f => hasCol test f) = true)) := by
  refine ⟨rfl, ?_⟩
  by_cases h1 : features.all (fun f => hasCol train f) = true <;>
    by_cases h2 : features.all (fun f => hasCol test f) = true <;>
    simp [dataPrep, isOkE, h1, h2]

/-- Claim C9 (confirmed): calling `train_model` before the search has
produced a result (`self.values` never assigned) raises `AttributeError`
at the `zip(self.hyperparameters, self.values)` expression: no
`set_params` call and no `fit` call is ever made. -/
theorem C9_train_model_before_search_fails (s : OState)
    (h : s.values = none) :
    (∃ n, (train_model s).1 = .error (.attributeError n)) ∧
    Event.fitE ∉ (train_model s).2 ∧ (train_model s).2 = [] := by
  cases hh : s.hyperparameters with
  | none =>
    refine ⟨⟨"hyperparameters", ?_⟩, ?_, ?_⟩ <;> simp [train_model, hh]
  | some hps =>
    refine ⟨⟨"values", ?_⟩, ?_, ?_⟩ <;> simp [train_model, hh, h]

theorem C9_train_model_before_search_fails_witness :
    (∃ n, (train_model { estimator := some egClassifier,
                         hyperparameters := none, values := none }).1 =
      .error (.attributeError n)) ∧
    Event.fitE ∉ (train_model { estimator := some egClassifier,
                                hyperparameters := none,
                                values := none }).2 ∧
    (train_model { estimator := some egClassifier,
                   hyperparameters := none, values := none }).2 = [] :=
  C9_train_model_before_search_fails
    { estimator := some egClassifier, hyperparameters := none,
      values := none } rfl

/-- Claim C10 (confirmed): `train_model` succeeds on a fully prepared
state, applying only the three searched hyperparameters; the constructor
choice, objective/loss, boosting type, booster, random seed, importance
accounting, tree depth and verbosity of the baseline estimator are all
left exactly as `base_model` set them. -/
theorem C10_train_model_touches_only_searched_params
    (e : Estimator) (vs : List ℚ) :
    (train_model { estimator := some e,
                   hyperparameters := some hyperparameter_names,
                   values := some vs }).1 =
      .ok (applyParams e (hyperparameter_names.zip vs)) ∧
    (applyParams e (hyperparameter_names.zip vs)).ctor = e.ctor ∧
    (applyParams e (hyperparameter_names.zip vs)).objective = e.objective ∧
    (applyParams e (hyperparameter_names.zip vs)).boosting_type =
      e.boosting_type ∧
    (applyParams e (hyperparameter_names.zip vs)).booster = e.booster ∧
    (applyParams e (hyperparameter_names.zip vs)).random_state =
      e.random_state ∧
    (applyParams e (hyperparameter_names.zip vs)).importance_type =
      e.importance_type ∧
    (applyParams e (hyperparameter_names.zip vs)).max_depth = e.max_depth ∧
    (applyParams e (hyperparameter_names.zip vs)).verbose = e.verbose := by
  have hf := applyParams_frame (hyperparameter_names.zip vs) e
  unfold frameOf at hf
  simp only [Prod.mk.injEq] at hf
  exact ⟨rfl, hf.1, hf.2.1, hf.2.2.1, hf.2.2.2.1, hf.2.2.2.2.1,
         hf.2.2.2.2.2.1, hf.2.2.2.2.2.2.1, hf.2.2.2.2.2.2.2⟩

end ML4S
